import Mathlib

/-!
Verification development for the OCPP 1.6 charge-point simulator
(`src/main.js`).  The engine is shallowly embedded: the browser storage
becomes explicit association lists, the WebSocket becomes a flag plus a
list of sent frames, callbacks become an event trace, and every method of
the `ChargePoint` class becomes a state-to-state function translated
line by line from the source.  Frames are modelled as their JSON values
(`JSON.stringify` is injective on them, so sending the value models
sending its serialisation).
-/

namespace OcppSim

/-- JSON-like values: the shapes handled by `JSON.parse` / `JSON.stringify`
in the source.  Numbers are integers (the engine only produces and
consumes integral numbers). -/
inductive JVal where
  | null
  | bool (b : Bool)
  | num (n : Int)
  | str (s : String)
  | arr (xs : List JVal)
  | obj (fields : List (String × JVal))

/-- Field access `payload.k` on a JS value: `none` models `undefined`. -/
def jGet : JVal → String → Option JVal
  | .obj fs, k => (fs.find? (fun p => p.1 == k)).map (fun p => p.2)
  | _, _ => none

/-- `v == "s"` in JS for a possibly-undefined value, as used by the
source on payload fields. -/
def isStrVal (v : Option JVal) (s : String) : Bool :=
  match v with
  | some (.str t) => t == s
  | _ => false

/-- JS truthiness of a possibly-undefined value (`undefined`, `null`,
`0`, `""` and `false` are falsy). -/
def truthy : Option JVal → Bool
  | none => false
  | some .null => false
  | some (.bool b) => b
  | some (.num n) => !(n == 0)
  | some (.str s) => !(s == "")
  | some (.arr _) => true
  | some (.obj _) => true

/-- JS `String(v)` for the values the engine converts (numbers, strings,
booleans, null).  `String()` of an array joins its elements and of an
object yields `[object Object]`; no modelled code path converts an array,
so the join is elided. -/
def jToString : JVal → String
  | .str s => s
  | .num n => toString n
  | .bool b => cond b "true" "false"
  | .null => "null"
  | .arr _ => ""
  | .obj _ => "[object Object]"

/-- JS `String(v)` where `v` may be `undefined`. -/
def jToStringU : Option JVal → String
  | none => "undefined"
  | some v => jToString v

/-- `Object.keys(payload).length` (strings expose their indices). -/
def jKeyCount : JVal → Nat
  | .obj fs => fs.length
  | .arr xs => xs.length
  | .str s => s.length
  | _ => 0

mutual

/-- `JSON.stringify` (compact form; string escaping elided, the engine
never logs strings needing escapes). -/
def jStringify : JVal → String
  | .null => "null"
  | .bool b => cond b "true" "false"
  | .num n => toString n
  | .str s => "\"" ++ s ++ "\""
  | .arr xs => "[" ++ jStringifyList xs ++ "]"
  | .obj fs => "\x7b" ++ jStringifyFields fs ++ "\x7d"

def jStringifyList : List JVal → String
  | [] => ""
  | [x] => jStringify x
  | x :: xs => jStringify x ++ "," ++ jStringifyList xs

def jStringifyFields : List (String × JVal) → String
  | [] => ""
  | [(k, v)] => "\"" ++ k ++ "\":" ++ jStringify v
  | (k, v) :: fs => "\"" ++ k ++ "\":" ++ jStringify v ++ "," ++ jStringifyFields fs

end

/-- `isEmpty` from the source: `!str || 0 === str.length`. -/
def isEmptyJ : JVal → Bool
  | .str s => s == ""
  | .null => true
  | .bool b => !b
  | .num n => n == 0
  | .arr xs => xs.isEmpty
  | .obj _ => false

/-- JS `parseInt` on the decimal strings the engine itself stores:
leading spaces, an optional sign, then a maximal digit prefix; `none`
models `NaN`.  (The hexadecimal `0x` path of `parseInt` is never
reachable from values the engine writes.) -/
def jsParseInt (s : String) : Option Int :=
  let cs := s.toList.dropWhile (fun c => c == ' ')
  let signAndDigits : Bool × List Char :=
    match cs with
    | '-' :: rest => (true, rest)
    | '+' :: rest => (false, rest)
    | _ => (false, cs)
  let digits := signAndDigits.2.takeWhile (fun c => c.isDigit)
  if digits.isEmpty then none
  else
    let n : Nat := digits.foldl (fun a c => a * 10 + (c.toNat - 48)) 0
    some (if signAndDigits.1 then -(n : Int) else (n : Int))

/-- `JSON.stringify` turns `NaN` into `null`; embedding of a
number-or-NaN into a frame. -/
def numOrNull : Option Int → JVal
  | some n => .num n
  | none => .null

/-- `String(v)` for a number-or-NaN. -/
def numOrNaNStr : Option Int → String
  | some n => toString n
  | none => "NaN"

/-- A browser storage namespace (`sessionStorage` / `localStorage`):
string keys to string values, later `setItem` shadowing earlier ones. -/
abbrev Store := List (String × String)

/-- `storage.setItem(k, v)`. -/
def storePut (st : Store) (k v : String) : Store := (k, v) :: st

/-- `storage.getItem(k)`: `none` models JS `null`. -/
def storeGet (st : Store) (k : String) : Option String :=
  (st.find? (fun p => p.1 == k)).map (fun p => p.2)

/-- `getSessionKey` / `getKey` from the source: the default replaces a
missing or falsy (empty) stored value. -/
def getOr (st : Store) (k d : String) : String :=
  match storeGet st k with
  | some v => if v == "" then d else v
  | none => d

/-- Observable callback invocations (`onStatusChange`,
`onAvailabilityChange`, `onLog`); the simulator registers all three at
startup, so every invocation is recorded. -/
inductive Event where
  | statusChange (s msg : String)
  | availabilityChange (c : Int) (a : String)
  | log (m : String)
deriving DecidableEq

/-- The charge point: the two storage namespaces, the WebSocket
(`sockOpen` = handle non-null), the heartbeat timer (`some period` when
armed; the period is the raw `payload.interval` value), the frames
written to the socket, the callback trace, the two simulation knobs, the
random source for `generateId` (call index to loop index to
`Math.floor(Math.random()*62)`), and the clock (`luxon.DateTime.utc`,
an opaque ISO timestamp). -/
structure CPState where
  session : Store
  localS : Store
  sockOpen : Bool
  heartbeat : Option (Option JVal)
  sent : List JVal
  events : List Event
  remoteStartStopResponse : String
  remoteStartDelaySeconds : Int
  rand : Nat → Nat → Nat
  idIdx : Nat
  now : String

def addEvent (st : CPState) (e : Event) : CPState :=
  { st with events := st.events ++ [e] }

/-- `logMsg`: prefix with `[OCPP] ` and emit on the logging callback. -/
def logMsg (st : CPState) (m : String) : CPState :=
  addEvent st (.log ("[OCPP] " ++ m))

def setSessionKey (st : CPState) (k v : String) : CPState :=
  { st with session := storePut st.session k v }

def setKey (st : CPState) (k v : String) : CPState :=
  { st with localS := storePut st.localS k v }

def getSessionKey (st : CPState) (k d : String) : String :=
  getOr st.session k d

def getKeyD (st : CPState) (k d : String) : String :=
  getOr st.localS k d

/-- `setStatus`: write `cp_status` to session storage, then fire the
status-change callback. -/
def setStatus (st : CPState) (s msg : String) : CPState :=
  addEvent (setSessionKey st "cp_status" s) (.statusChange s msg)

/-- `status()`: read back `cp_status`. -/
def status (st : CPState) : String :=
  getSessionKey st "cp_status" ""

/-- The 62-character id alphabet of `generateId`. -/
def idAlphabet : List Char :=
  "ABCDEFGHIJKLMNOPQRSTUVWXYZabcdefghijklmnopqrstuvwxyz0123456789".toList

/-- JS `s.charAt(i)`: a one-character string, or `""` out of range. -/
def charAt (s : List Char) (i : Nat) : List Char :=
  match s.get? i with
  | some c => [c]
  | none => []

/-- `generateId`: 36 iterations of `id += possible.charAt(r i)` where
`r i = Math.floor(Math.random() * 62)`. -/
def generateIdChars (r : Nat → Nat) : List Char :=
  (List.range 36).foldl (fun acc i => acc ++ charAt idAlphabet (r i)) []

/-- The id the next `generateId()` call returns in state `st`. -/
def genId (st : CPState) : String :=
  String.mk (generateIdChars (st.rand st.idIdx))

/-- Advance the random source past one `generateId()` call. -/
def bumpId (st : CPState) : CPState :=
  { st with idIdx := st.idIdx + 1 }

/-- `wsSendData`: write on the socket, or enter ERROR when the handle is
null. -/
def wsSendData (st : CPState) (data : JVal) : CPState :=
  if st.sockOpen then { st with sent := st.sent ++ [data] }
  else setStatus st "error" "No connection to OCPP server"

def setLastAction (st : CPState) (a : String) : CPState :=
  setSessionKey st "LastAction" a

def getLastAction (st : CPState) : String :=
  getSessionKey st "LastAction" ""

/-- An object field that `JSON.stringify` drops when the value is
`undefined`. -/
def optField (k : String) : Option JVal → List (String × JVal)
  | some v => [(k, v)]
  | none => []

/-- `authorize(tagId)`. -/
def authorize (st : CPState) (tagId : JVal) : CPState :=
  let st := setLastAction st "Authorize"
  let st := logMsg st ("Requesting authorization for tag " ++ jToString tagId)
  let id := genId st
  let st := bumpId st
  wsSendData st (.arr [.num 2, .str id, .str "Authorize", .obj [("idTag", tagId)]])

/-- `setMeterValue(v, updateServer)` (forward declaration resolved below
via `sendMeterValue`). -/
def sendMeterValue (st : CPState) (connectorId : Int) : CPState :=
  let st := setLastAction st "MeterValues"
  let meter := getSessionKey st "meter_value" ""
  let id := genId st
  let st := bumpId st
  let transactionId := jsParseInt (getSessionKey st "TransactionId" "")
  let frame : JVal := .arr [.num 2, .str id, .str "MeterValues", .obj
    [("connectorId", .num connectorId),
     ("transactionId", numOrNull transactionId),
     ("meterValue", .arr [.obj
       [("sampledValue", .arr [.obj
         [("value", .str meter),
          ("context", .str "Sample.Periodic"),
          ("format", .str "Raw"),
          ("measurand", .str "Energy.Active.Import.Register"),
          ("location", .str "Outlet"),
          ("unit", .str "Wh")]]),
        ("timestamp", .str st.now)]])]]
  let st := logMsg st
    ("Send Meter Values (Wh): " ++ meter ++ " (connector " ++ toString connectorId ++ ")")
  wsSendData st frame

/-- `setMeterValue(v, updateServer)`. -/
def setMeterValue (st : CPState) (v : Int) (updateServer : Bool) : CPState :=
  let st := setSessionKey st "meter_value" (toString v)
  if updateServer then sendMeterValue st 0 else st

/-- `connectorStatus(c)`. -/
def connectorStatus (st : CPState) (c : Int) : String :=
  getSessionKey st ("conn_status" ++ toString c) ""

/-- `sendStatusNotification(c)`: the payload status is re-read from the
session store (the function declares a single parameter; the extra
argument some call sites pass is discarded by JS). -/
def sendStatusNotification (st : CPState) (c : Int) : CPState :=
  let stv := connectorStatus st c
  let st := setLastAction st "StatusNotification"
  let id := genId st
  let st := bumpId st
  let frame : JVal := .arr [.num 2, .str id, .str "StatusNotification", .obj
    [("connectorId", .num c),
     ("status", .str stv),
     ("errorCode", .str "NoError"),
     ("info", .str ""),
     ("timestamp", .str st.now),
     ("vendorId", .str ""),
     ("vendorErrorCode", .str "")]]
  let st := logMsg st
    ("Sending StatusNotification for connector " ++ toString c ++ ": " ++ stv)
  wsSendData st frame

/-- `setConnectorStatus(c, newStatus, updateServer)`. -/
def setConnectorStatus (st : CPState) (c : Int) (newStatus : String)
    (updateServer : Bool) : CPState :=
  let st := setSessionKey st ("conn_status" ++ toString c) newStatus
  if updateServer then sendStatusNotification st c else st

/-- `availability(c)`: durable, defaulting to Operative. -/
def availability (st : CPState) (c : Int) : String :=
  getKeyD st ("conn_availability" ++ toString c) "Operative"

/-- The cascade-free part of `setConnectorAvailability(c, newAvailability)`:
the durable write, the status branch, and the availability-change
callback.  Both source branches test `Inoperative`, so the second
(`Available`) branch is dead; it is kept verbatim. -/
def setConnAvailLocal (st : CPState) (c : Int) (newAvailability : String) :
    CPState :=
  let st0 := setKey st ("conn_availability" ++ toString c) newAvailability
  let st1 :=
    if newAvailability = "Inoperative" then
      setConnectorStatus st0 c "Unavailable" true
    else if newAvailability = "Inoperative" then
      setConnectorStatus st0 c "Available" true
    else st0
  addEvent st1 (.availabilityChange c newAvailability)

/-- `setConnectorAvailability(c, newAvailability)`: the local update,
then for connector 0 the source recurses on connectors 1 and 2.  Those
recursive calls have a non-zero connector, hence cascade no further and
coincide with the local update; the bounded recursion is unfolded
accordingly. -/
def setConnectorAvailability (st : CPState) (c : Int) (newAvailability : String) :
    CPState :=
  let st2 := setConnAvailLocal st c newAvailability
  if c = 0 then
    setConnAvailLocal (setConnAvailLocal st2 1 newAvailability) 2 newAvailability
  else st2

/-- `startTransaction(tagId, connectorId, reservationId)`.  The
`$('#metervalue').val(0)` line touches only the UI input and is elided;
`_cp.setMeterValue(0)` is the engine-side meter reset. -/
def startTransaction (st : CPState) (tagId : Option JVal) (connectorId : Int)
    (reservationId : Int) : CPState :=
  let st := setStatus st "in_transaction" ""
  let id := genId st
  let st := bumpId st
  let st := setMeterValue st 0 false
  let frame : JVal := .arr [.num 2, .str id, .str "StartTransaction", .obj
    ([("connectorId", .num connectorId)] ++ optField "idTag" tagId ++
     [("meterStart", .num 0),
      ("timestamp", .str st.now),
      ("reservationId", .num reservationId)])]
  let st := logMsg st
    ("Starting Transaction for tag " ++ jToStringU tagId ++ " (connector:" ++
     toString connectorId ++ ", meter value=0)")
  let st := wsSendData st frame
  let st := setConnectorStatus st connectorId "Charging" true
  setLastAction st "StartTransaction"

/-- `stopTransactionWithId(transactionId, tagId)`. -/
def stopTransactionWithId (st : CPState) (transactionId : Option JVal)
    (tagId : JVal) : CPState :=
  let st := setLastAction st "StopTransaction"
  let st := setStatus st "authorized" ""
  let meterValue := jsParseInt (getSessionKey st "meter_value" "0")
  let st := logMsg st
    ("Stopping Transaction with id " ++ jToStringU transactionId ++
     " (meterValue (Wh) =" ++ numOrNaNStr meterValue ++ ")")
  let id := genId st
  let st := bumpId st
  let stopParams : List (String × JVal) :=
    optField "transactionId" transactionId ++
    [("timestamp", .str st.now),
     ("meterStop", numOrNull meterValue),
     ("reason", .str "Local"),
     ("transactionData", .arr
       [.obj [("sampledValue", .arr [.obj
                [("value", .str "0"),
                 ("context", .str "Transaction.Begin"),
                 ("format", .str "Raw"),
                 ("measurand", .str "Energy.Active.Import.Register"),
                 ("location", .str "Outlet"),
                 ("unit", .str "Wh")]]),
              ("timestamp", .str st.now)],
        .obj [("sampledValue", .arr [.obj
                [("value", .str (numOrNaNStr meterValue)),
                 ("context", .str "Transaction.End"),
                 ("format", .str "Raw"),
                 ("measurand", .str "Energy.Active.Import.Register"),
                 ("location", .str "Outlet"),
                 ("unit", .str "Wh")]]),
              ("timestamp", .str st.now)]])] ++
    (if isEmptyJ tagId then [] else [("idTag", tagId)])
  let st := wsSendData st (.arr [.num 2, .str id, .str "StopTransaction", .obj stopParams])
  setConnectorStatus st 1 "Finishing" false

/-- `stopTransaction(tagId)`: `parseInt` of the stored id; `NaN` is
modelled as `null`, which every later use (JSON embedding) agrees with.
-/
def stopTransaction (st : CPState) (tagId : JVal) : CPState :=
  stopTransactionWithId st (some (numOrNull (jsParseInt (getSessionKey st "TransactionId" "")))) tagId

/-- `sendBootNotification()`. -/
def sendBootNotification (st : CPState) : CPState :=
  let st := logMsg st "Sending BootNotification"
  let st := setLastAction st "BootNotification"
  let id := genId st
  let st := bumpId st
  wsSendData st (.arr [.num 2, .str id, .str "BootNotification", .obj
    [("chargePointVendor", .str "Elmo"),
     ("chargePointModel", .str "Elmo-Virtual1"),
     ("chargePointSerialNumber", .str "elm.001.13.1"),
     ("chargeBoxSerialNumber", .str "elm.001.13.1.01"),
     ("firmwareVersion", .str "0.9.87"),
     ("iccid", .str ""),
     ("imsi", .str ""),
     ("meterType", .str "ELM NQC-ACDC"),
     ("meterSerialNumber", .str "elm.001.13.1.01")]])

/-- `setHeartbeat(period)`: clear any previous timer and arm a new one;
the net effect on the single timer slot is an armed timer at the new
period (the raw `payload.interval` value). -/
def setHeartbeat (st : CPState) (period : Option JVal) : CPState :=
  let st := logMsg st ("Setting heartbeat period to " ++ jToStringU period ++ "s")
  { st with heartbeat := some period }

/-- `sendHeartbeat()`. -/
def sendHeartbeat (st : CPState) : CPState :=
  let st := setLastAction st "Heartbeat"
  let id := genId st
  let st := bumpId st
  let frame : JVal := .arr [.num 2, .str id, .str "Heartbeat", .obj []]
  let st := logMsg st "Heartbeat"
  wsSendData st frame

/-- `wsDisconnect()`: `close(3001)` only starts closing the socket (the
handle stays non-null until the close event, `wsOnClose`); the
synchronous effect is the DISCONNECTED status write.  Note the heartbeat
timer slot is untouched. -/
def wsDisconnect (st : CPState) : CPState :=
  setStatus st "disconnected" ""

/-- `triggerMessage(requestedMessage, c)`. -/
def triggerMessage (st : CPState) (requestedMessage : Option JVal) (c : Int) :
    CPState :=
  match requestedMessage with
  | some (.str "BootNotification") => sendBootNotification st
  | some (.str "Heartbeat") => sendHeartbeat st
  | some (.str "MeterValues") => sendMeterValue st c
  | some (.str "StatusNotification") => sendStatusNotification st c
  | some (.str "DiagnosticStatusNotification") => st
  | some (.str "FirmwareStatusNotification") => st
  | other => logMsg st ("Requested Message not supported: " ++ jToStringU other)

/-- `handleCallResult(payload)`: routing by the single `LastAction`
session slot.  In the Authorize branch a missing or null `idTagInfo`
makes the JS `.status` access throw, aborting the handler with no state
change. -/
def handleCallResult (st : CPState) (payload : JVal) : CPState :=
  let la := getLastAction st
  if la = "BootNotification" then
    if isStrVal (jGet payload "status") "Accepted" then
      let st := logMsg st "Connection accepted"
      let st := setHeartbeat st (jGet payload "interval")
      setStatus st "connected" ""
    else
      let st := logMsg st "Connection refused by server"
      wsDisconnect st
  else if la = "Authorize" then
    match jGet payload "idTagInfo" with
    | none => st
    | some .null => st
    | some info =>
      if isStrVal (jGet info "status") "Invalid" then
        logMsg st "Authorization failed"
      else
        let st := logMsg st "Authorization OK"
        setStatus st "authorized" ""
  else if la = "StartTransaction" then
    match jGet payload "transactionId" with
    | none => st
    | some v =>
      if truthy (some v) then
        let st := setSessionKey st "TransactionId" (jToString v)
        let st := setStatus st "in_transaction" ("TransactionId: " ++ jToString v)
        logMsg st ("Transaction id is " ++ jToString v)
      else st
  else if la = "StopTransaction" then
    setConnectorStatus st 1 "Available" false
  else
    if jKeyCount payload > 0 then
      logMsg st
        ("NOT IMPLEMENTED in handleCallResult in ocpp_chargepont.js, payload: " ++
         jStringify payload)
    else st

/-- `handleCallError(errCode, errMsg)`. -/
def handleCallError (st : CPState) (errCode errMsg : JVal) : CPState :=
  setStatus st "error" ("ErrorCode: " ++ jToString errCode ++ " (" ++ jToString errMsg ++ ")")

/-- `handleCallRequest(id, request, payload)`.  The `await` in the
RemoteStartTransaction branch only delays the tail call; the handler is
modelled as the complete sequence.  A conformant `connectorId` is
numeric. -/
def handleCallRequest (st : CPState) (id : JVal) (request : String)
    (payload : JVal) : CPState :=
  let respOk : JVal := .arr [.num 3, id, .obj [("status", .str "Accepted")]]
  if request = "Reset" then
    let st := logMsg st ("Reset Request: type=" ++ jToStringU (jGet payload "type"))
    let st := wsSendData st respOk
    wsDisconnect st
  else if request = "RemoteStartTransaction" then
    let tagId := jGet payload "idTag"
    let st := logMsg st
      ("Reception of a RemoteStartTransaction request for tag " ++ jToStringU tagId)
    let st := wsSendData st
      (.arr [.num 3, id, .obj [("status", .str st.remoteStartStopResponse)]])
    if st.remoteStartStopResponse = "Rejected" then st
    else
      let st := logMsg st
        ("Simulating " ++ toString st.remoteStartDelaySeconds ++
         " sec delay for user to plug in charger")
      startTransaction st tagId 1 0
  else if request = "RemoteStopTransaction" then
    let stopId := jGet payload "transactionId"
    let st := logMsg st
      ("Reception of a RemoteStopTransaction request for transaction " ++
       jToStringU stopId)
    let st := wsSendData st
      (.arr [.num 3, id, .obj [("status", .str st.remoteStartStopResponse)]])
    if st.remoteStartStopResponse = "Rejected" then st
    else stopTransactionWithId st stopId (.str "DEADBEEF")
  else if request = "TriggerMessage" then
    let requestedMessage := jGet payload "requestedMessage"
    let connectorId : Int :=
      if truthy (jGet payload "connectorId") then
        match jGet payload "connectorId" with
        | some (.num n) => n
        | _ => 0
      else 0
    let st := logMsg st
      ("Reception of a TriggerMessage request (" ++ jToStringU requestedMessage ++ ")")
    let st := wsSendData st respOk
    triggerMessage st requestedMessage connectorId
  else if request = "ChangeAvailability" then
    let avail := jGet payload "type"
    let connectorId : Int :=
      match jGet payload "connectorId" with
      | some (.num n) => n
      | _ => 0
    let st := logMsg st
      ("Reception of a ChangeAvailability request (connector " ++
       jToStringU (jGet payload "connectorId") ++ " " ++ jToStringU avail ++ ")")
    let st := wsSendData st respOk
    setConnectorAvailability st connectorId (jToStringU avail)
  else if request = "UnlockConnector" then
    wsSendData st respOk
  else if request = "GetConfiguration" then
    let st := logMsg st
      ("Reception of a GetConfiguration request (" ++
       jToStringU (jGet payload "requestedMessage") ++ ")")
    wsSendData st (.arr [.num 3, id, .obj
      [("unknownKey", .arr []),
       ("configurationKey", .arr [.obj
         [("key", .str "HeartbeatInterval"),
          ("readonly", .bool false),
          ("value", .str "900")]])]])
  else
    wsSendData st (.arr [.num 4, id, .str "NotImplemented"])

/-- `wsConnect(wsurl, cpid)`: refuse a second connect; otherwise create
the socket (callbacks fire later as `wsOnOpen` / `wsOnClose` /
message-handler steps). -/
def wsConnect (st : CPState) (_wsurl _cpid : String) : CPState :=
  if st.sockOpen then
    setStatus st "error" "Socket already opened. Closing it. Retry later"
  else { st with sockOpen := true }

/-- The socket `onopen` callback. -/
def wsOnOpen (st : CPState) : CPState :=
  sendBootNotification (setStatus st "connecting" "")

/-- The socket `onclose` callback. -/
def wsOnClose (st : CPState) (code : Int) : CPState :=
  if code = 3001 then
    let st := setStatus st "disconnected" ""
    let st := logMsg st "Connection closed"
    { st with sockOpen := false }
  else
    let st := setStatus st "error" ("Connection error: " ++ toString code)
    let st := logMsg st ("Connection error: " ++ toString code)
    { st with sockOpen := false }

/-- The state of a freshly created `ChargePoint` in a fresh browser tab:
empty session storage, whatever durable storage survives, closed socket,
no timer. -/
def initialState (ls : Store) (rand : Nat → Nat → Nat) (now : String) : CPState :=
  { session := []
    localS := ls
    sockOpen := false
    heartbeat := none
    sent := []
    events := []
    remoteStartStopResponse := "Accepted"
    remoteStartDelaySeconds := 0
    rand := rand
    idIdx := 0
    now := now }

/-- States the simulator can actually be in: the page-ready state
(`_cp.setStatus(CP_DISCONNECTED)` on load) closed under the engine
operations: socket lifecycle callbacks, inbound-message dispatch, the
command interface the UI invokes, the heartbeat timer, the simulation
knobs, and the passage of time. -/
inductive Reachable : CPState → Prop where
  | page (ls : Store) (rand : Nat → Nat → Nat) (now : String) :
      Reachable (setStatus (initialState ls rand now) "disconnected" "")
  | connect (st : CPState) (url cpid : String) :
      Reachable st → Reachable (wsConnect st url cpid)
  | opened (st : CPState) :
      Reachable st → st.sockOpen = true → Reachable (wsOnOpen st)
  | closedCb (st : CPState) (code : Int) :
      Reachable st → st.sockOpen = true → Reachable (wsOnClose st code)
  | callRequest (st : CPState) (id : JVal) (req : String) (p : JVal) :
      Reachable st → st.sockOpen = true → Reachable (handleCallRequest st id req p)
  | callResult (st : CPState) (p : JVal) :
      Reachable st → st.sockOpen = true → Reachable (handleCallResult st p)
  | callError (st : CPState) (e m : JVal) :
      Reachable st → st.sockOpen = true → Reachable (handleCallError st e m)
  | authorizeStep (st : CPState) (tag : JVal) :
      Reachable st → Reachable (authorize st tag)
  | startTx (st : CPState) (tag : Option JVal) (c r : Int) :
      Reachable st → Reachable (startTransaction st tag c r)
  | stopTx (st : CPState) (tag : JVal) :
      Reachable st → Reachable (stopTransaction st tag)
  | stopTxWithId (st : CPState) (txn : Option JVal) (tag : JVal) :
      Reachable st → Reachable (stopTransactionWithId st txn tag)
  | heartbeatStep (st : CPState) :
      Reachable st → Reachable (sendHeartbeat st)
  | meterSend (st : CPState) (c : Int) :
      Reachable st → Reachable (sendMeterValue st c)
  | meterSet (st : CPState) (v : Int) (u : Bool) :
      Reachable st → Reachable (setMeterValue st v u)
  | connStatus (st : CPState) (c : Int) (s : String) (u : Bool) :
      Reachable st → Reachable (setConnectorStatus st c s u)
  | connAvail (st : CPState) (c : Int) (a : String) :
      Reachable st → Reachable (setConnectorAvailability st c a)
  | disconnectStep (st : CPState) :
      Reachable st → Reachable (wsDisconnect st)
  | rssResponse (st : CPState) (v : String) :
      Reachable st → Reachable { st with remoteStartStopResponse := v }
  | rsDelay (st : CPState) (v : Int) :
      Reachable st → Reachable { st with remoteStartDelaySeconds := v }
  | tick (st : CPState) (t : String) :
      Reachable st → Reachable { st with now := t }

/-! ### Concrete scenario states (fixed clock, degenerate randomness) -/

def nowT : String := "2026-01-01T00:00:00Z"

def rand0 : Nat → Nat → Nat := fun _ _ => 0

/-- The page-ready state of a fresh tab
(`_cp.setStatus(CP_DISCONNECTED)` on document-ready). -/
def stReady : CPState := setStatus (initialState [] rand0 nowT) "disconnected" ""

/-- The operator pressed connect and the socket opened. -/
def stConnecting : CPState := wsOnOpen (wsConnect stReady "ws:cs" "CP01")

/-- The BootNotification CALLRESULT arrived: Accepted, 300 s interval. -/
def stBooted : CPState :=
  handleCallResult stConnecting
    (.obj [("status", .str "Accepted"), ("interval", .num 300),
           ("currentTime", .str nowT)])

/-- The unknown inbound action `FooBar` arriving in the booted state. -/
def stUnknownCall : CPState :=
  handleCallRequest stBooted (.str "X") "FooBar" (.obj [])

/-- Connector 1 set to Charging in the booted state. -/
def stCharging : CPState := setConnectorStatus stBooted 1 "Charging" false

/-- `setConnectorAvailability(1, Operative)` applied to that state. -/
def stOperativeSet : CPState := setConnectorAvailability stCharging 1 "Operative"

/-- An Authorize CALL sent from the booted state. -/
def stAuthSent : CPState := authorize stBooted (.str "DEADBEEF")

/-- A Heartbeat CALL sent while the Authorize reply is outstanding. -/
def stHbSent : CPState := sendHeartbeat stAuthSent

/-- The CALLRESULT payload of an accepted Authorize. -/
def authPayload : JVal := .obj [("idTagInfo", .obj [("status", .str "Accepted")])]

/-- `startTransaction` invoked from the booted state. -/
def stStarted : CPState := startTransaction stBooted (some (.str "DEADBEEF")) 1 0

/-- The C3 invariant: IN_TRANSACTION status implies a stored
transactionId. -/
def txnInvariant (st : CPState) : Prop :=
  status st = "in_transaction" → storeGet st.session "TransactionId" ≠ none

/-! ### Storage lemmas -/

theorem storeGet_put_self (s : Store) (k v : String) :
    storeGet (storePut s k v) k = some v := by
  simp [storeGet, storePut]

theorem storeGet_put_ne (s : Store) (k k' v : String) (h : k' ≠ k) :
    storeGet (storePut s k v) k' = storeGet s k' := by
  unfold storeGet storePut
  rw [List.find?_cons_of_neg]
  simp
  exact fun hh => h hh.symm

theorem getOr_put_self (s : Store) (k v d : String) :
    getOr (storePut s k v) k d = if v = "" then d else v := by
  simp [getOr, storeGet_put_self]

theorem getOr_put_ne (s : Store) (k k' v d : String) (h : k' ≠ k) :
    getOr (storePut s k v) k' d = getOr s k' d := by
  simp [getOr, storeGet_put_ne _ _ _ _ h]

/-- A connector-status key is never one of the short fixed keys. -/
theorem connStatusKey_ne (c : Int) (k : String) (hk : k.length < 11) :
    ("conn_status" ++ toString c) ≠ k := by
  intro h
  have hl := congrArg String.length h
  rw [String.length_append] at hl
  have h11 : ("conn_status" : String).length = 11 := rfl
  omega

/-! ### C8: sending on a null socket -/

/-- C8 (confirmed).  Whenever data is sent while the WebSocket handle is
null, `wsSendData` sets the charge-point status to ERROR with detail
`No connection to OCPP server`, and nothing is appended to the socket
output. -/
theorem c8_nullSocket_send (st : CPState) (data : JVal)
    (h : st.sockOpen = false) :
    status (wsSendData st data) = "error" ∧
    (wsSendData st data).sent = st.sent ∧
    (wsSendData st data).events =
      st.events ++ [Event.statusChange "error" "No connection to OCPP server"] := by
  refine ⟨?_, ?_, ?_⟩ <;>
    simp [wsSendData, h, setStatus, setSessionKey, addEvent, status,
      getSessionKey, getOr_put_self]

/-- C8 witness: the page-ready state has no socket; sending there
errors out concretely. -/
theorem c8_nullSocket_send_witness :
    status (wsSendData stReady (.str "x")) = "error" ∧
    (wsSendData stReady (.str "x")).sent = stReady.sent ∧
    (wsSendData stReady (.str "x")).events =
      stReady.events ++ [Event.statusChange "error" "No connection to OCPP server"] :=
  c8_nullSocket_send stReady (.str "x") rfl

/-! ### C4: disconnect and the heartbeat timer -/

/-- C4 (code bug).  `wsDisconnect` does set the status to DISCONNECTED,
but it never clears the heartbeat interval (only `setHeartbeat` does):
after disconnecting the booted state, the 300 s timer is still armed,
and when it next fires after the socket close event the Heartbeat CALL
runs into the null socket and flips the status to ERROR. -/
theorem c4_disconnect_keeps_heartbeat :
    (wsDisconnect stBooted).heartbeat = some (some (.num 300)) ∧
    status (wsDisconnect stBooted) = "disconnected" ∧
    status (sendHeartbeat (wsOnClose (wsDisconnect stBooted) 3001)) = "error" :=
  ⟨rfl, rfl, rfl⟩

/-! ### C5: the CALLERROR reply to an unknown action -/

/-- C5 (code bug).  For the unknown action `FooBar` the engine replies
with `[4, "X", "NotImplemented"]`: the error code is in the slot the
claim expects, but the array has three elements, not the five-element
`[4, uniqueId, errorCode, errorDescription, errorDetails]` shape the
claim (and OCPP 1.6 framing) requires. -/
theorem c5_callError_three_elements :
    stUnknownCall.sent =
      stBooted.sent ++ [JVal.arr [.num 4, .str "X", .str "NotImplemented"]] ∧
    ([JVal.num 4, .str "X", .str "NotImplemented"] : List JVal).length = 3 :=
  ⟨rfl, rfl⟩

/-! ### C2: setConnectorAvailability and the dead Operative branch -/

/-- C2 (code bug).  `setConnectorAvailability(1, Operative)` performs the
durable write, but because both source branches test `Inoperative`, the
Operative case changes no connector status and sends no
StatusNotification: from status Charging the connector stays Charging
and the socket output is unchanged.  The Inoperative half of the claim
does hold (status becomes Unavailable). -/
theorem c2_operative_branch_dead :
    availability stOperativeSet 1 = "Operative" ∧
    connectorStatus stOperativeSet 1 = "Charging" ∧
    stOperativeSet.sent = stCharging.sent ∧
    connectorStatus (setConnectorAvailability stCharging 1 "Inoperative") 1 =
      "Unavailable" :=
  ⟨rfl, rfl, rfl, rfl⟩

/-! ### C1: CALLRESULT routing through the LastAction slot -/

/-- C1 (code bug).  A Heartbeat sent between the Authorize CALL and its
CALLRESULT overwrites the single `LastAction` slot, so the reply is
dispatched to the default branch instead of the Authorize handler: the
status stays `connected` instead of becoming `authorized`.  Without the
interleaved Heartbeat the very same reply does reach the Authorize
handler. -/
theorem c1_lastAction_misroutes_reply :
    getLastAction stHbSent = "Heartbeat" ∧
    status (handleCallResult stHbSent authPayload) = "connected" ∧
    status (handleCallResult stHbSent authPayload) ≠ "authorized" ∧
    status (handleCallResult stAuthSent authPayload) = "authorized" :=
  ⟨rfl, rfl, by decide, rfl⟩

/-! ### C6: StartTransaction reply with missing or zero transactionId -/

/-- C6 (confirmed).  When the StartTransaction CALLRESULT (identified,
as the source does, by `LastAction = StartTransaction`) carries a
`transactionId` that is missing or zero, the handler leaves both the
stored `TransactionId` and the charge-point status untouched. -/
theorem c6_zero_txn_reply_no_change (st : CPState) (p : JVal)
    (hla : getLastAction st = "StartTransaction")
    (htxn : jGet p "transactionId" = none ∨
            jGet p "transactionId" = some (JVal.num 0)) :
    storeGet (handleCallResult st p).session "TransactionId" =
      storeGet st.session "TransactionId" ∧
    status (handleCallResult st p) = status st := by
  have hres : handleCallResult st p = st := by
    rcases htxn with h | h <;> simp [handleCallResult, hla, h, truthy]
  rw [hres]
  exact ⟨rfl, rfl⟩

/-- C6 witness: after a concrete `startTransaction`, a reply with an
empty payload changes neither the stored id nor the status. -/
theorem c6_zero_txn_reply_no_change_witness :
    storeGet (handleCallResult stStarted (.obj [])).session "TransactionId" =
      storeGet stStarted.session "TransactionId" ∧
    status (handleCallResult stStarted (.obj [])) = status stStarted :=
  c6_zero_txn_reply_no_change stStarted (.obj []) rfl (Or.inl rfl)

/-! ### C3: the IN_TRANSACTION versus transactionId invariant -/

/-- C3 counterexample: the claimed invariant fails on the code.
`startTransaction` sets the status to IN_TRANSACTION as its very first
step, before any CALLRESULT can deliver a transactionId; from the booted
session (reached by connect, socket open, and an accepted
BootNotification result) the stored `TransactionId` is still absent. -/
theorem c3_in_transaction_invariant_fails :
    ¬ ∀ st : CPState, Reachable st → status st = "in_transaction" →
        storeGet st.session "TransactionId" ≠ none := by
  intro hall
  have hreach : Reachable stStarted :=
    Reachable.startTx _ _ _ _
      (Reachable.callResult _ _
        (Reachable.opened _
          (Reachable.connect _ "ws:cs" "CP01" (Reachable.page [] rand0 nowT)) rfl)
        rfl)
  exact hall stStarted hreach (by decide) (by decide)

/-- Case analysis of `handleCallResult`: every branch either leaves the
status and the stored `TransactionId` as they were, moves the status
away from IN_TRANSACTION, or stores a transactionId. -/
theorem handleCallResult_txn_cases (st : CPState) (p : JVal) :
    (status (handleCallResult st p) = status st ∧
     storeGet (handleCallResult st p).session "TransactionId" =
       storeGet st.session "TransactionId")
  ∨ status (handleCallResult st p) ≠ "in_transaction"
  ∨ storeGet (handleCallResult st p).session "TransactionId" ≠ none := by
  by_cases h1 : getLastAction st = "BootNotification"
  · by_cases h2 : isStrVal (jGet p "status") "Accepted" = true
    · refine Or.inr (Or.inl ?_)
      simp [handleCallResult, h1, h2, setHeartbeat, logMsg, addEvent, setStatus,
        setSessionKey, status, getSessionKey, getOr_put_self]
    · refine Or.inr (Or.inl ?_)
      simp [handleCallResult, h1, h2, wsDisconnect, logMsg, addEvent, setStatus,
        setSessionKey, status, getSessionKey, getOr_put_self]
  · by_cases h2 : getLastAction st = "Authorize"
    · rcases hj : jGet p "idTagInfo" with _ | v
      · exact Or.inl (by simp [handleCallResult, h1, h2, hj])
      · cases v with
        | null => exact Or.inl (by simp [handleCallResult, h1, h2, hj])
        | bool b =>
          by_cases h3 : isStrVal (jGet (.bool b) "status") "Invalid" = true
          · exact Or.inl (by simp [handleCallResult, h1, h2, hj, h3, logMsg, addEvent, status, getSessionKey])
          · refine Or.inr (Or.inl ?_)
            simp [handleCallResult, h1, h2, hj, h3, logMsg, addEvent, setStatus,
              setSessionKey, status, getSessionKey, getOr_put_self]
        | num n =>
          by_cases h3 : isStrVal (jGet (.num n) "status") "Invalid" = true
          · exact Or.inl (by simp [handleCallResult, h1, h2, hj, h3, logMsg, addEvent, status, getSessionKey])
          · refine Or.inr (Or.inl ?_)
            simp [handleCallResult, h1, h2, hj, h3, logMsg, addEvent, setStatus,
              setSessionKey, status, getSessionKey, getOr_put_self]
        | str s =>
          by_cases h3 : isStrVal (jGet (.str s) "status") "Invalid" = true
          · exact Or.inl (by simp [handleCallResult, h1, h2, hj, h3, logMsg, addEvent, status, getSessionKey])
          · refine Or.inr (Or.inl ?_)
            simp [handleCallResult, h1, h2, hj, h3, logMsg, addEvent, setStatus,
              setSessionKey, status, getSessionKey, getOr_put_self]
        | arr xs =>
          by_cases h3 : isStrVal (jGet (.arr xs) "status") "Invalid" = true
          · exact Or.inl (by simp [handleCallResult, h1, h2, hj, h3, logMsg, addEvent, status, getSessionKey])
          · refine Or.inr (Or.inl ?_)
            simp [handleCallResult, h1, h2, hj, h3, logMsg, addEvent, setStatus,
              setSessionKey, status, getSessionKey, getOr_put_self]
        | obj fs =>
          by_cases h3 : isStrVal (jGet (.obj fs) "status") "Invalid" = true
          · exact Or.inl (by simp [handleCallResult, h1, h2, hj, h3, logMsg, addEvent, status, getSessionKey])
          · refine Or.inr (Or.inl ?_)
            simp [handleCallResult, h1, h2, hj, h3, logMsg, addEvent, setStatus,
              setSessionKey, status, getSessionKey, getOr_put_self]
    · by_cases h3 : getLastAction st = "StartTransaction"
      · rcases hj : jGet p "transactionId" with _ | v
        · exact Or.inl (by simp [handleCallResult, h1, h2, h3, hj])
        · by_cases ht : truthy (some v) = true
          · refine Or.inr (Or.inr ?_)
            simp [handleCallResult, h1, h2, h3, hj, ht, logMsg, addEvent, setStatus,
              setSessionKey,
              storeGet_put_ne _ _ _ _ (by decide : "TransactionId" ≠ "cp_status"),
              storeGet_put_self]
          · exact Or.inl (by simp [handleCallResult, h1, h2, h3, hj, ht])
      · by_cases h4 : getLastAction st = "StopTransaction"
        · refine Or.inl ?_
          constructor
          · simp [handleCallResult, h1, h2, h3, h4, setConnectorStatus, setSessionKey,
              status, getSessionKey,
              getOr_put_ne _ _ _ _ _
                (by decide : "cp_status" ≠ ("conn_status" ++ toString (1 : Int)))]
          · simp [handleCallResult, h1, h2, h3, h4, setConnectorStatus, setSessionKey,
              storeGet_put_ne _ _ _ _
                (by decide : "TransactionId" ≠ ("conn_status" ++ toString (1 : Int)))]
        · by_cases h5 : jKeyCount p > 0
          · exact Or.inl (by simp [handleCallResult, h1, h2, h3, h4, h5, logMsg, addEvent, status, getSessionKey])
          · exact Or.inl (by simp [handleCallResult, h1, h2, h3, h4, h5])

/-- C3 (corrected).  The amended claim: CALLRESULT handling preserves the
invariant `cpStatus = IN_TRANSACTION implies transactionId is set` — the
StartTransaction result handler stores the id before entering
IN_TRANSACTION, and no result handler erases the id.  (The original
universal claim is false: the `startTransaction` command itself enters
IN_TRANSACTION before any id exists, see the counterexample.) -/
theorem c3_callResult_preserves_txn_invariant (st : CPState) (p : JVal)
    (hinv : txnInvariant st) : txnInvariant (handleCallResult st p) := by
  intro hpost
  rcases handleCallResult_txn_cases st p with ⟨hs, ht⟩ | hne | hok
  · rw [ht]
    exact hinv (hs ▸ hpost)
  · exact absurd hpost hne
  · exact hok

/-- C3 witness: the preservation theorem applied at the page-ready state
and an empty payload. -/
theorem c3_callResult_preserves_txn_invariant_witness :
    txnInvariant (handleCallResult stReady (.obj [])) :=
  c3_callResult_preserves_txn_invariant stReady (.obj [])
    (fun h => absurd h (by decide))

/-! ### C9: setConnectorStatus writes first, the notification re-reads -/

/-- C9 (confirmed).  `setConnectorStatus(c, s, true)` first writes `s`
into the session store and then sends the StatusNotification;
`sendStatusNotification` declares a single parameter (the extra status
argument passed at the call site is discarded by JS) and re-reads the
connector status from the store, so the payload status equals the value
just written. -/
theorem c9_status_written_then_sent (st : CPState) (c : Int) (s : String)
    (h : st.sockOpen = true) :
    storeGet (setConnectorStatus st c s true).session
      ("conn_status" ++ toString c) = some s ∧
    (setConnectorStatus st c s true).sent = st.sent ++
      [JVal.arr [.num 2, .str (genId st), .str "StatusNotification", .obj
        [("connectorId", .num c), ("status", .str s), ("errorCode", .str "NoError"),
         ("info", .str ""), ("timestamp", .str st.now), ("vendorId", .str ""),
         ("vendorErrorCode", .str "")]]] := by
  constructor
  · simp [setConnectorStatus, sendStatusNotification, setLastAction, setSessionKey,
      logMsg, addEvent, bumpId, wsSendData, h,
      storeGet_put_ne _ _ _ _ (connStatusKey_ne c "LastAction" (by decide)),
      storeGet_put_self]
  · have hsv : getOr (storePut st.session ("conn_status" ++ toString c) s)
        ("conn_status" ++ toString c) "" = s := by
      rw [getOr_put_self]
      by_cases hs : s = "" <;> simp [hs]
    simp [setConnectorStatus, sendStatusNotification, connectorStatus, getSessionKey,
      setLastAction, setSessionKey, logMsg, addEvent, bumpId, wsSendData, h, genId, hsv]

/-- C9 witness: concrete instance on the booted state, connector 1,
status Finishing. -/
theorem c9_status_written_then_sent_witness :
    storeGet (setConnectorStatus stBooted 1 "Finishing" true).session
      ("conn_status" ++ toString (1 : Int)) = some "Finishing" ∧
    (setConnectorStatus stBooted 1 "Finishing" true).sent = stBooted.sent ++
      [JVal.arr [.num 2, .str (genId stBooted), .str "StatusNotification", .obj
        [("connectorId", .num 1), ("status", .str "Finishing"),
         ("errorCode", .str "NoError"), ("info", .str ""),
         ("timestamp", .str stBooted.now), ("vendorId", .str ""),
         ("vendorErrorCode", .str "")]]] :=
  c9_status_written_then_sent stBooted 1 "Finishing" rfl

/-! ### C7: the connector-0 availability cascade -/

theorem setConnAvailLocal_localS (st : CPState) (c : Int) (a : String) :
    (setConnAvailLocal st c a).localS =
      storePut st.localS ("conn_availability" ++ toString c) a := by
  by_cases ha : a = "Inoperative" <;>
    simp [setConnAvailLocal, ha, setKey, setConnectorStatus, setSessionKey,
      sendStatusNotification, setLastAction, logMsg, addEvent, bumpId, wsSendData,
      setStatus, apply_ite CPState.localS]

theorem setConnAvailLocal_sockOpen (st : CPState) (c : Int) (a : String) :
    (setConnAvailLocal st c a).sockOpen = st.sockOpen := by
  by_cases ha : a = "Inoperative" <;>
    simp [setConnAvailLocal, ha, setKey, setConnectorStatus, setSessionKey,
      sendStatusNotification, setLastAction, logMsg, addEvent, bumpId, wsSendData,
      setStatus, apply_ite CPState.sockOpen]

theorem setConnAvailLocal_events_op (st : CPState) (c : Int) (a : String)
    (ha : ¬ a = "Inoperative") :
    (setConnAvailLocal st c a).events =
      st.events ++ [Event.availabilityChange c a] := by
  simp [setConnAvailLocal, ha, setKey, addEvent]

theorem setConnAvailLocal_events_inop_open (st : CPState) (c : Int)
    (hs : st.sockOpen = true) :
    ∃ m, (setConnAvailLocal st c "Inoperative").events =
      st.events ++ [Event.log m, Event.availabilityChange c "Inoperative"] := by
  simp [setConnAvailLocal, setKey, setConnectorStatus, setSessionKey,
    sendStatusNotification, connectorStatus, getSessionKey, setLastAction, logMsg,
    addEvent, bumpId, wsSendData, hs]

theorem setConnAvailLocal_events_inop_closed (st : CPState) (c : Int)
    (hs : st.sockOpen = false) :
    ∃ m, (setConnAvailLocal st c "Inoperative").events =
      st.events ++ [Event.log m,
        Event.statusChange "error" "No connection to OCPP server",
        Event.availabilityChange c "Inoperative"] := by
  simp [setConnAvailLocal, setKey, setConnectorStatus, setSessionKey,
    sendStatusNotification, connectorStatus, getSessionKey, setLastAction, logMsg,
    addEvent, bumpId, wsSendData, hs, setStatus]

/-- C7 (confirmed).  After `setConnectorAvailability(0, a)` the durable
availability of connectors 0, 1 and 2 all equal `a`, and the callback
trace shows the availability-change event for connector 0 strictly
before the cascaded events for connectors 1 and then 2 (each preceded
only by its own StatusNotification bookkeeping). -/
theorem c7_connector0_cascade (st : CPState) (a : String) :
    storeGet (setConnectorAvailability st 0 a).localS "conn_availability0" = some a ∧
    storeGet (setConnectorAvailability st 0 a).localS "conn_availability1" = some a ∧
    storeGet (setConnectorAvailability st 0 a).localS "conn_availability2" = some a ∧
    ∃ e0 e1 e2 : List Event,
      (setConnectorAvailability st 0 a).events =
        st.events ++ e0 ++ [Event.availabilityChange 0 a] ++ e1 ++
          [Event.availabilityChange 1 a] ++ e2 ++ [Event.availabilityChange 2 a] := by
  have e0k : ("conn_availability" ++ toString (0 : Int)) = "conn_availability0" := by
    decide
  have e1k : ("conn_availability" ++ toString (1 : Int)) = "conn_availability1" := by
    decide
  have e2k : ("conn_availability" ++ toString (2 : Int)) = "conn_availability2" := by
    decide
  have hL : (setConnectorAvailability st 0 a).localS =
      storePut (storePut (storePut st.localS "conn_availability0" a)
        "conn_availability1" a) "conn_availability2" a := by
    simp [setConnectorAvailability, setConnAvailLocal_localS, e0k, e1k, e2k]
  refine ⟨?_, ?_, ?_, ?_⟩
  · rw [hL, storeGet_put_ne _ _ _ _ (by decide), storeGet_put_ne _ _ _ _ (by decide),
      storeGet_put_self]
  · rw [hL, storeGet_put_ne _ _ _ _ (by decide), storeGet_put_self]
  · rw [hL, storeGet_put_self]
  · by_cases ha : a = "Inoperative"
    · subst ha
      cases hso : st.sockOpen with
      | false =>
        obtain ⟨m0, hm0⟩ := setConnAvailLocal_events_inop_closed st 0 hso
        obtain ⟨m1, hm1⟩ := setConnAvailLocal_events_inop_closed
          (setConnAvailLocal st 0 "Inoperative") 1
          (by rw [setConnAvailLocal_sockOpen]; exact hso)
        obtain ⟨m2, hm2⟩ := setConnAvailLocal_events_inop_closed
          (setConnAvailLocal (setConnAvailLocal st 0 "Inoperative") 1 "Inoperative") 2
          (by rw [setConnAvailLocal_sockOpen, setConnAvailLocal_sockOpen]; exact hso)
        refine ⟨[Event.log m0,
                 Event.statusChange "error" "No connection to OCPP server"],
                [Event.log m1,
                 Event.statusChange "error" "No connection to OCPP server"],
                [Event.log m2,
                 Event.statusChange "error" "No connection to OCPP server"], ?_⟩
        simp only [setConnectorAvailability, eq_self_iff_true, if_true]
        rw [hm2, hm1, hm0]
        simp
      | true =>
        obtain ⟨m0, hm0⟩ := setConnAvailLocal_events_inop_open st 0 hso
        obtain ⟨m1, hm1⟩ := setConnAvailLocal_events_inop_open
          (setConnAvailLocal st 0 "Inoperative") 1
          (by rw [setConnAvailLocal_sockOpen]; exact hso)
        obtain ⟨m2, hm2⟩ := setConnAvailLocal_events_inop_open
          (setConnAvailLocal (setConnAvailLocal st 0 "Inoperative") 1 "Inoperative") 2
          (by rw [setConnAvailLocal_sockOpen, setConnAvailLocal_sockOpen]; exact hso)
        refine ⟨[Event.log m0], [Event.log m1], [Event.log m2], ?_⟩
        simp only [setConnectorAvailability, eq_self_iff_true, if_true]
        rw [hm2, hm1, hm0]
        simp
    · refine ⟨[], [], [], ?_⟩
      simp only [setConnectorAvailability, eq_self_iff_true, if_true]
      rw [setConnAvailLocal_events_op _ _ _ ha, setConnAvailLocal_events_op _ _ _ ha,
        setConnAvailLocal_events_op _ _ _ ha]
      simp

/-! ### C10: the shape of generated unique ids -/

theorem charAt_length_of_lt (i : Nat) (h : i < idAlphabet.length) :
    (charAt idAlphabet i).length = 1 := by
  unfold charAt
  rw [List.get?_eq_get h]
  rfl

theorem charAt_subset (s : List Char) (i : Nat) :
    ∀ c ∈ charAt s i, c ∈ s := by
  intro c hc
  unfold charAt at hc
  cases hg : s.get? i with
  | none => rw [hg] at hc; cases hc
  | some d =>
    rw [hg] at hc
    simp at hc
    subst hc
    exact List.get?_mem hg

theorem foldl_append_charAt (r : Nat → Nat) :
    ∀ (l : List Nat) (acc : List Char),
      (∀ i ∈ l, r i < 62) →
      ((l.foldl (fun a i => a ++ charAt idAlphabet (r i)) acc).length =
        acc.length + l.length ∧
       ∀ c ∈ l.foldl (fun a i => a ++ charAt idAlphabet (r i)) acc,
         c ∈ acc ∨ c ∈ idAlphabet) := by
  intro l
  induction l with
  | nil =>
    intro acc _
    exact ⟨by simp, fun c hc => Or.inl hc⟩
  | cons x xs ih =>
    intro acc hb
    obtain ⟨hl, hm⟩ := ih (acc ++ charAt idAlphabet (r x))
      (fun i hi => hb i (List.mem_cons_of_mem _ hi))
    constructor
    · have hcl : (charAt idAlphabet (r x)).length = 1 := by
        apply charAt_length_of_lt
        have h62 : idAlphabet.length = 62 := by decide
        rw [h62]
        exact hb x (List.mem_cons_self _ _)
      rw [List.foldl_cons, hl, List.length_append, hcl, List.length_cons]
      omega
    · intro c hc
      rw [List.foldl_cons] at hc
      rcases hm c hc with h | h
      · rcases List.mem_append.1 h with h' | h'
        · exact Or.inl h'
        · exact Or.inr (charAt_subset _ _ _ h')
      · exact Or.inr h

/-- C10 (confirmed).  Every id produced by `generateId` — and hence the
uniqueId of every outbound CALL, since `genId` builds the frame ids from
`generateIdChars` — has exactly 36 characters, each drawn from the id
alphabet, which is a duplicate-free list of 62 ASCII upper-case letters,
lower-case letters and digits.  The hypothesis encodes
`Math.floor(Math.random() * possible.length)` landing in `[0, 61]`. -/
theorem c10_generateId_shape (r : Nat → Nat) (h : ∀ i, i < 36 → r i < 62) :
    (generateIdChars r).length = 36 ∧
    (∀ c ∈ generateIdChars r, c ∈ idAlphabet) ∧
    idAlphabet.length = 62 ∧ idAlphabet.Nodup ∧
    (∀ c ∈ idAlphabet, c.isUpper ∨ c.isLower ∨ c.isDigit) := by
  have hb : ∀ i ∈ List.range 36, r i < 62 :=
    fun i hi => h i (List.mem_range.1 hi)
  obtain ⟨hl, hm⟩ := foldl_append_charAt r (List.range 36) [] hb
  refine ⟨?_, ?_, by decide, by decide, by decide⟩
  · simpa using hl
  · intro c hc
    rcases hm c hc with h' | h'
    · cases h'
    · exact h'

/-- C10 witness: the degenerate random source that always picks index 0.
-/
theorem c10_generateId_shape_witness :
    (generateIdChars (fun _ => 0)).length = 36 ∧
    (∀ c ∈ generateIdChars (fun _ => 0), c ∈ idAlphabet) ∧
    idAlphabet.length = 62 ∧ idAlphabet.Nodup ∧
    (∀ c ∈ idAlphabet, c.isUpper ∨ c.isLower ∨ c.isDigit) :=
  c10_generateId_shape (fun _ => 0) (by intro i hi; show (0 : Nat) < 62; decide)

end OcppSim

